import Mathlib

/-!
Verification of the bmw-saver work-time scheduling and node-pool scaling
subsystems, shallowly embedded from the Go source.

Conventions of the embedding:
* A `time.Time` instant is modelled as `Int` nanoseconds since the Unix epoch.
* A `*time.Location` is modelled as a fixed UTC offset in nanoseconds
  (daylight-saving transitions are not exercised by any property here).
* Compiled regular expressions (`*regexp.Regexp`) are modelled as their
  matching predicates `String → Bool`.
* The day-bucketed event caches (`map[string][]event`, keyed by a
  `YYYY-MM-DD` string) are modelled as `Int → Option (List _)`, keyed by the
  calendar-day number; a `none` bucket models an absent map key, matching the
  `events, ok := m[key]` test in the Go code.
* Cloud APIs are modelled as explicit state (`GKEWorld`, `AWSWorld`) plus a
  trace of the mutation calls issued; a `busy` flag on the world makes every
  cloud mutation call answer with the provider's operation-in-progress error.
-/

namespace BmwSaver

/-- Nanoseconds in one calendar day. -/
def nsPerDay : Int := 86400000000000

/-- An instant: nanoseconds since the Unix epoch (models `time.Time`). -/
abbrev Instant := Int

/-- A `*time.Location`, modelled as a fixed UTC offset in nanoseconds. -/
structure Location where
  offsetNs : Int
deriving DecidableEq

/-- A local (zone-converted) time: calendar day number plus offset in the day.
Models the value of `now.In(location)`. -/
structure LocalTime where
  day : Int
  ofDayNs : Int
deriving DecidableEq

/-- Convert an instant into a location (models `now.In(location)`). -/
def toLocal (loc : Location) (t : Instant) : LocalTime :=
  ⟨(t + loc.offsetNs).ediv nsPerDay, (t + loc.offsetNs).emod nsPerDay⟩

/-- Go weekday numbering (Sunday = 0); day 0 (1970-01-01) was a Thursday. -/
def LocalTime.weekday (lt : LocalTime) : Int :=
  (lt.day + 4).emod 7

/-- Models `a.After(b)` for two local times carried in the same location. -/
def LocalTime.after (a b : LocalTime) : Bool :=
  decide (b.day < a.day) || (decide (a.day = b.day) && decide (b.ofDayNs < a.ofDayNs))

/-- Models `a.Before(b)` for two local times carried in the same location. -/
def LocalTime.before (a b : LocalTime) : Bool :=
  decide (a.day < b.day) || (decide (a.day = b.day) && decide (a.ofDayNs < b.ofDayNs))

/-- Split a character list at each colon. -/
def splitColonAux : List Char → List Char → List (List Char)
  | [], acc => [acc.reverse]
  | c :: rest, acc =>
    if c = ':' then acc.reverse :: splitColonAux rest []
    else splitColonAux rest (c :: acc)

/-- Parse a two-digit decimal field. -/
def twoDigits (cs : List Char) : Option Nat :=
  match cs with
  | [c1, c2] =>
    if c1.isDigit && c2.isDigit then some ((c1.toNat - 48) * 10 + (c2.toNat - 48)) else none
  | _ => none

/-- Parse a one- or two-digit decimal field (Go's hour field accepts both). -/
def oneOrTwoDigits (cs : List Char) : Option Nat :=
  match cs with
  | [c1] => if c1.isDigit then some (c1.toNat - 48) else none
  | [c1, c2] =>
    if c1.isDigit && c2.isDigit then some ((c1.toNat - 48) * 10 + (c2.toNat - 48)) else none
  | _ => none

/-- Models `time.ParseInLocation("15:04", s, loc)` restricted to the
hour-and-minute content: `none` models a parse error (the code's
invalid-time-format failure). -/
def parseHHMM (s : String) : Option (Nat × Nat) :=
  match splitColonAux s.toList [] with
  | [hs, ms] =>
    match oneOrTwoDigits hs, twoDigits ms with
    | some h, some m => if h < 24 && m < 60 then some (h, m) else none
    | _, _ => none
  | _ => none

/-- Nanosecond offset in the day of a wall-clock `h:m:00`. -/
def hmToNs (h m : Nat) : Int :=
  (((h * 60 + m) * 60 : Nat) : Int) * 1000000000

/-- Errors surfaced by the schedule providers. -/
inductive SchedError where
  | invalidTimeZone
  | invalidTimeFormat
  | calendarError (msg : String)
deriving DecidableEq

/-- `schedule.StaticProvider`: fixed clock window plus weekday set.
`TimeZone` carries the result of `time.LoadLocation` (`none` models an
unresolvable zone name); `WorkDays` models the Go `map[time.Weekday]bool`
(an absent key reads as `false`). -/
structure StaticProvider where
  StartTime : String
  EndTime : String
  TimeZone : Option Location
  WorkDays : Int → Bool

/-- `StaticProvider.IsWorkTime`, translated from the source: convert `now`
into the configured zone, reject non-work weekdays, parse the `HH:MM`
bounds, anchor them to the current date in the zone, and compare with
strict `After`/`Before`. -/
def StaticProvider.IsWorkTime (p : StaticProvider) (now : Instant) : Except SchedError Bool :=
  match p.TimeZone with
  | none => .error .invalidTimeZone
  | some location =>
    let nowInTz := toLocal location now
    if ! p.WorkDays nowInTz.weekday then .ok false
    else
      match parseHHMM p.StartTime with
      | none => .error .invalidTimeFormat
      | some (sh, sm) =>
        match parseHHMM p.EndTime with
        | none => .error .invalidTimeFormat
        | some (eh, em) =>
          let startTime : LocalTime := ⟨nowInTz.day, hmToNs sh sm⟩
          let endTime : LocalTime := ⟨nowInTz.day, hmToNs eh em⟩
          .ok (nowInTz.after startTime && nowInTz.before endTime)

/-- `schedule.CompositeProvider`: the member providers, in order. A member is
modelled by its `IsWorkTime` function. -/
structure CompositeProvider where
  providers : List (Instant → Except SchedError Bool)

/-- The loop body of `CompositeProvider.IsWorkTime`: evaluate members in
order, fail fast on an error, stop at the first `false`. -/
def compositeLoop (t : Instant) : List (Instant → Except SchedError Bool) → Except SchedError Bool
  | [] => .ok true
  | q :: qs =>
    match q t with
    | .error e => .error e
    | .ok false => .ok false
    | .ok true => compositeLoop t qs

/-- `CompositeProvider.IsWorkTime`, translated from the source. -/
def CompositeProvider.IsWorkTime (p : CompositeProvider) (t : Instant) : Except SchedError Bool :=
  compositeLoop t p.providers

/-! ## Remote calendar providers (Google / ICS variants) -/

/-- The calendar-day number of an instant, modelling `t.Format("2006-01-02")`
in the embedding's single reference frame. -/
def dateKey (t : Instant) : Int :=
  t.ediv nsPerDay

/-- Append an event to a day bucket of a day-indexed cache; an absent key
yields the empty slice before the append, as in Go. -/
def bucketAppend {α : Type} (m : Int → Option (List α)) (k : Int) (a : α) :
    Int → Option (List α) :=
  fun k2 => if k2 = k then some ((m k).getD [] ++ [a]) else m k2

/-- Number of iterations of the bucketing loop
`for current := start; current.Before(end); current = current.AddDate(0,0,1)`. -/
def daySteps (startT endT : Instant) : Nat :=
  ((endT - startT + nsPerDay - 1).ediv nsPerDay).toNat

/-- Fuel-indexed unfolding of the bucketing loop body. -/
def storeDaysGo {α : Type} (a : α) : Nat → Instant → (Int → Option (List α)) →
    Int → Option (List α)
  | 0, _, m => m
  | n + 1, current, m => storeDaysGo a n (current + nsPerDay) (bucketAppend m (dateKey current) a)

/-- Store an event under every calendar day its `[start, end)` range spans
(the shared loop of both `syncEvents` implementations). -/
def storeEventDays {α : Type} (m : Int → Option (List α)) (a : α)
    (startT endT : Instant) : Int → Option (List α) :=
  storeDaysGo a (daySteps startT endT) startT m

/-- `schedule.cachedEvent` (Google variant): start and end instants. -/
structure cachedEvent where
  Start : Instant
  End : Instant
deriving DecidableEq

/-- `schedule.calendarEvent` (ICS variant): start, end and summary label. -/
structure calendarEvent where
  Start : Instant
  End : Instant
  Summary : String
deriving DecidableEq

/-- A Google calendar list entry as it reaches the caching loop: the parsed
start/end instants (`none` models a missing or unparseable field). -/
structure RawGoogleEvent where
  Start : Option Instant
  End : Option Instant

/-- An ICS feed entry as it reaches the caching loop: `Start` is the
`GetStartAt` result (`none` models its failure), `End` the `GetEndAt` result
(`none` models a missing end), `Summary` the summary property. -/
structure RawICSEvent where
  Start : Option Instant
  End : Option Instant
  Summary : Option String

/-- The day-bucketed index built by `GoogleCalendarProvider.syncEvents` from
the listed events: events missing a start or end representation are skipped,
the rest are stored under every day they span. -/
def buildGoogleIndex (items : List RawGoogleEvent) : Int → Option (List cachedEvent) :=
  items.foldl
    (fun m ev =>
      match ev.Start, ev.End with
      | some s, some e => storeEventDays m (⟨s, e⟩ : cachedEvent) s e
      | _, _ => m)
    (fun _ => none)

/-- The day-bucketed index built by `ICSCalendarProvider.syncEvents` from the
parsed feed: an event without a parseable start is skipped, a missing end is
treated as one day after the start, an event without a summary is skipped. -/
def buildICSIndex (rawEvents : List RawICSEvent) : Int → Option (List calendarEvent) :=
  rawEvents.foldl
    (fun m ev =>
      match ev.Start with
      | none => m
      | some startT =>
        let endT :=
          match ev.End with
          | some e => e
          | none => startT + nsPerDay
        match ev.Summary with
        | none => m
        | some s => storeEventDays m (⟨startT, endT, s⟩ : calendarEvent) startT endT)
    (fun _ => none)

/-- `schedule.GoogleCalendarProvider`: the off-time search query and the
day-bucketed event cache. -/
structure GoogleCalendarProvider where
  offTimeEvents : String
  events : Int → Option (List cachedEvent)

/-- `GoogleCalendarProvider.syncEvents`, as a transition on the provider
state. The fetch outcome (`service.Events.List(...).Do()` together with the
per-event parsing inputs) is passed in; `.error` models a failed list call.
The source clears the cache at the top of the function, before the fetch, so
a failed refresh leaves an empty cache. -/
def GoogleCalendarProvider.syncEvents (p : GoogleCalendarProvider)
    (listResult : Except String (List RawGoogleEvent)) :
    GoogleCalendarProvider × Option String :=
  let cleared : GoogleCalendarProvider := { p with events := fun _ => none }
  if p.offTimeEvents == "" then (cleared, none)
  else
    match listResult with
    | .error msg => (cleared, some msg)
    | .ok items => ({ cleared with events := buildGoogleIndex items }, none)

/-- The scan of one day's bucket in `GoogleCalendarProvider.IsWorkTime`:
true until some event's `[start, end)` contains `t`. -/
def googleScan (t : Instant) : List cachedEvent → Bool
  | [] => true
  | e :: rest => if ¬ t < e.Start ∧ t < e.End then false else googleScan t rest

/-- `GoogleCalendarProvider.IsWorkTime`, translated from the source:
no bucket for the day means work time; otherwise any bucketed off-time event
containing `t` (inclusive start, exclusive end) means not work time. -/
def GoogleCalendarProvider.IsWorkTime (p : GoogleCalendarProvider) (t : Instant) :
    Except SchedError Bool :=
  match p.events (dateKey t) with
  | none => .ok true
  | some evs => .ok (googleScan t evs)

/-- `schedule.ICSCalendarProvider`: compiled work-day and holiday patterns
(modelled as matching predicates) plus the day-bucketed event cache. -/
structure ICSCalendarProvider where
  workPatterns : List (String → Bool)
  holidayPatterns : List (String → Bool)
  events : Int → Option (List calendarEvent)

/-- `ICSCalendarProvider.syncEvents`, as a transition on the provider state.
The fetch outcome (`client.Get` + body read + `ics.ParseCalendar`) is passed
in; `.error` models any of those failing. The source returns before touching
the cache on failure and clears-and-rebuilds it only after a successful
parse, so a failed refresh leaves the previous cache in place. -/
def ICSCalendarProvider.syncEvents (p : ICSCalendarProvider)
    (fetchResult : Except String (List RawICSEvent)) :
    ICSCalendarProvider × Option String :=
  match fetchResult with
  | .error msg => (p, some msg)
  | .ok rawEvents => ({ p with events := buildICSIndex rawEvents }, none)

/-- The scan of one day's bucket in `ICSCalendarProvider.IsWorkTime`: for an
event whose `[start, end)` contains `t`, holiday patterns are tested first
(match means not work time), then work-day patterns (match means work time);
an event matching neither is skipped; exhausting the bucket means work time. -/
def icsScan (holidayPats workPats : List (String → Bool)) (t : Instant) :
    List calendarEvent → Except SchedError Bool
  | [] => .ok true
  | e :: rest =>
    if ¬ t < e.Start ∧ t < e.End then
      if holidayPats.any (fun pat => pat e.Summary) then .ok false
      else if workPats.any (fun pat => pat e.Summary) then .ok true
      else icsScan holidayPats workPats t rest
    else icsScan holidayPats workPats t rest

/-- `ICSCalendarProvider.IsWorkTime`, translated from the source. -/
def ICSCalendarProvider.IsWorkTime (p : ICSCalendarProvider) (t : Instant) :
    Except SchedError Bool :=
  match p.events (dateKey t) with
  | none => .ok true
  | some evs => icsScan p.holidayPatterns p.workPatterns t evs

/-! ## Cloud scaling providers (GKE / EKS variants) -/

/-- Errors surfaced by the cloud scaling providers. `noSavedState` is the
distinct recoverable condition recognised by `IsNoSavedStateError`. -/
inductive ProviderError where
  | noSavedState (pool : String)
  | genericError (msg : String)
deriving DecidableEq

/-- `providers.IsNoSavedStateError`, translated from the source. -/
def IsNoSavedStateError : Except ProviderError Unit → Bool
  | .error (.noSavedState _) => true
  | _ => false

/-- `container.NodePoolAutoscaling` (fields used by the code). -/
structure NodePoolAutoscaling where
  Enabled : Bool
  MinNodeCount : Int
  MaxNodeCount : Int
deriving DecidableEq

/-- `container.NodePool` (fields used by the code). -/
structure NodePool where
  Name : String
  InitialNodeCount : Int
  Autoscaling : Option NodePoolAutoscaling
deriving DecidableEq

/-- `providers.NodePoolConfig`: the saved pre-scale-down GKE pool state. -/
structure NodePoolConfig where
  NodeCount : Int
  Autoscaling : Option NodePoolAutoscaling
deriving DecidableEq

/-- A Kubernetes node as the code reads it: name, the provider pool/group
label value, the cordon flag and the region topology label. -/
structure GoNode where
  Name : String
  poolLabel : String
  Unschedulable : Bool
  regionLabel : String
deriving DecidableEq

/-- `types.NodegroupScalingConfig` (EKS): pointer fields modelled as options. -/
structure NodegroupScalingConfig where
  MinSize : Option Int
  MaxSize : Option Int
  DesiredSize : Option Int
deriving DecidableEq

/-- An EKS node group as `DescribeNodegroup` reports it (fields used). -/
structure Nodegroup where
  ScalingConfig : Option NodegroupScalingConfig
deriving DecidableEq

/-- `providers.NodeGroupConfig`: the saved pre-scale-down EKS group state. -/
structure NodeGroupConfig where
  DesiredSize : Int
  Autoscaling : Option NodegroupScalingConfig
deriving DecidableEq

/-- A mutation call issued against the cloud provider or the cluster. -/
inductive CloudCall where
  | drainNode (name : String)
  | createConfigMap (name : String)
  | setNodePoolSize (pool : String) (count : Int)
  | setNodePoolAutoscaling (pool : String) (a : NodePoolAutoscaling)
  | updateNodegroupConfig (group : String) (mn mx ds : Option Int)
deriving DecidableEq

/-- The saved-state ConfigMap name: the fixed prefix plus the pool name. -/
def savedStateKey (nodePoolName : String) : String :=
  "bmw-saver-nodepool-" ++ nodePoolName

/-- Association-list lookup, modelling a keyed read of the saved-state store. -/
def listLookup {α : Type} : List (String × α) → String → Option α
  | [], _ => none
  | (k2, v) :: rest, k => if k2 == k then some v else listLookup rest k

/-- `kubernetes.CreateConfigMap` semantics on the store: create-if-absent
(an already-existing record is left untouched and reported as success). -/
def createIfAbsent {α : Type} (l : List (String × α)) (k : String) (v : α) :
    List (String × α) :=
  match listLookup l k with
  | some _ => l
  | none => l ++ [(k, v)]

/-- Find the first node pool with the given name (`listNodePools` + the
name scan used throughout the GKE provider). -/
def findPoolIn : List NodePool → String → Option NodePool
  | [], _ => none
  | p :: rest, name => if p.Name == name then some p else findPoolIn rest name

/-- Apply an update to every pool with the given name (the effect of a
successful mutation call on the cluster's pool list). -/
def updatePools (f : NodePool → NodePool) (name : String) : List NodePool → List NodePool
  | [] => []
  | p :: rest => (if p.Name == name then f p else p) :: updatePools f name rest

/-- The GKE-side world: the cluster's node pools, the Kubernetes nodes, the
saved-state store, and whether the cluster currently answers mutations with
`CLUSTER_ALREADY_HAS_OPERATION`. -/
structure GKEWorld where
  nodePools : List NodePool
  nodes : List GoNode
  configMaps : List (String × NodePoolConfig)
  busy : Bool
deriving DecidableEq

/-- Looking up a pool by name in the world. -/
def GKEWorld.findPool (w : GKEWorld) (name : String) : Option NodePool :=
  findPoolIn w.nodePools name

/-- Effect of a successful `SetSize` on the cluster state. -/
def GKEWorld.applySetSize (w : GKEWorld) (name : String) (count : Int) : GKEWorld :=
  { w with nodePools := updatePools (fun p => { p with InitialNodeCount := count }) name w.nodePools }

/-- Effect of a successful `SetAutoscaling` on the cluster state. -/
def GKEWorld.applySetAutoscaling (w : GKEWorld) (name : String) (a : NodePoolAutoscaling) : GKEWorld :=
  { w with nodePools := updatePools (fun p => { p with Autoscaling := some a }) name w.nodePools }

/-- `GKEProvider.updateNodePool`: issue `SetSize`; a busy response is logged
and swallowed (retry next reconciliation). Other API failures are outside
this model. -/
def GKEProvider.updateNodePool (w : GKEWorld) (nodePoolName : String) (count : Int) :
    Except ProviderError Unit × GKEWorld × List CloudCall :=
  if w.busy then (.ok (), w, [.setNodePoolSize nodePoolName count])
  else (.ok (), w.applySetSize nodePoolName count, [.setNodePoolSize nodePoolName count])

/-- `GKEProvider.disableAutoscaling`: issue `SetAutoscaling` with
`Enabled: false`; a busy response is logged and swallowed. -/
def GKEProvider.disableAutoscaling (w : GKEWorld) (nodePoolName : String) :
    Except ProviderError Unit × GKEWorld × List CloudCall :=
  if w.busy then (.ok (), w, [.setNodePoolAutoscaling nodePoolName ⟨false, 0, 0⟩])
  else (.ok (), w.applySetAutoscaling nodePoolName ⟨false, 0, 0⟩,
        [.setNodePoolAutoscaling nodePoolName ⟨false, 0, 0⟩])

/-- `GKEProvider.saveNodePoolConfig`: look the pool up again and write its
current size and autoscaling configuration, create-if-absent. -/
def GKEProvider.saveNodePoolConfig (w : GKEWorld) (nodePoolName : String) :
    Except ProviderError Unit × GKEWorld × List CloudCall :=
  match w.findPool nodePoolName with
  | none => (.error (.genericError ("node pool not found")), w, [])
  | some nodePool =>
    let cfg : NodePoolConfig := ⟨nodePool.InitialNodeCount, nodePool.Autoscaling⟩
    (.ok (),
     { w with configMaps := createIfAbsent w.configMaps (savedStateKey nodePoolName) cfg },
     [.createConfigMap (savedStateKey nodePoolName)])

/-- `GKEProvider.ScaleNodePool`, translated from the source: a missing pool
is a logged no-op; a pool already at the desired node count returns before
any mutation; otherwise drain the cordoned nodes, save the pool state,
disable autoscaling when enabled, and set the size. Node draining always
succeeds in this model (pod-level failures are logged, not propagated). -/
def GKEProvider.ScaleNodePool (w : GKEWorld) (nodePoolName : String) (count : Int) :
    Except ProviderError Unit × GKEWorld × List CloudCall :=
  match w.findPool nodePoolName with
  | none => (.ok (), w, [])
  | some nodePool =>
    let nodes := w.nodes.filter (fun n => n.poolLabel == nodePoolName)
    if (nodes.length : Int) = count then (.ok (), w, [])
    else
      let drainCalls := (nodes.filter (fun n => n.Unschedulable)).map
        (fun n => CloudCall.drainNode n.Name)
      match GKEProvider.saveNodePoolConfig w nodePoolName with
      | (.error e, w2, calls2) => (.error e, w2, drainCalls ++ calls2)
      | (.ok _, w2, calls2) =>
        let step3 :=
          match nodePool.Autoscaling with
          | some a =>
            if a.Enabled then GKEProvider.disableAutoscaling w2 nodePoolName
            else ((.ok () : Except ProviderError Unit), w2, ([] : List CloudCall))
          | none => ((.ok () : Except ProviderError Unit), w2, ([] : List CloudCall))
        match step3 with
        | (.error e, w3, calls3) => (.error e, w3, drainCalls ++ calls2 ++ calls3)
        | (.ok _, w3, calls3) =>
          match GKEProvider.updateNodePool w3 nodePoolName count with
          | (r, w4, calls4) => (r, w4, drainCalls ++ calls2 ++ calls3 ++ calls4)

/-- The saved state's autoscaling-enabled flag (Go's
`savedConfig.Autoscaling != nil && savedConfig.Autoscaling.Enabled`). -/
def NodePoolConfig.savedAutoscalingEnabled (savedConfig : NodePoolConfig) : Bool :=
  match savedConfig.Autoscaling with
  | some s => s.Enabled
  | none => false

/-- The `isAutoscalingMatch` test of `GKEProvider.RestoreNodePool`. -/
def autoscalingEnabledMatch (currentPool : NodePool) (savedConfig : NodePoolConfig) : Bool :=
  (currentPool.Autoscaling.isNone && savedConfig.Autoscaling.isNone) ||
  (match currentPool.Autoscaling, savedConfig.Autoscaling with
   | some c, some s => c.Enabled == s.Enabled
   | _, _ => false)

/-- The `isNodeCountMatch` test of `GKEProvider.RestoreNodePool`. -/
def nodeCountMatch (currentPool : NodePool) (savedConfig : NodePoolConfig) : Bool :=
  savedConfig.savedAutoscalingEnabled ||
  (currentPool.InitialNodeCount == savedConfig.NodeCount)

/-- `GKEProvider.RestoreNodePool`, translated from the source: read the
saved record (missing means `NoSavedState`), find the live pool, return
without any API call when the saved state matches the live state; otherwise
re-enable autoscaling (when saved enabled and different) or set the size
back; busy responses are swallowed. -/
def GKEProvider.RestoreNodePool (w : GKEWorld) (nodePoolName : String) :
    Except ProviderError Unit × GKEWorld × List CloudCall :=
  match listLookup w.configMaps (savedStateKey nodePoolName) with
  | none => (.error (.noSavedState nodePoolName), w, [])
  | some savedConfig =>
    match w.findPool nodePoolName with
    | none => (.error (.genericError ("node pool not found")), w, [])
    | some currentPool =>
      if autoscalingEnabledMatch currentPool savedConfig &&
         nodeCountMatch currentPool savedConfig then (.ok (), w, [])
      else
        match savedConfig.Autoscaling with
        | some sa =>
          if sa.Enabled then
            if ! autoscalingEnabledMatch currentPool savedConfig then
              if w.busy then (.ok (), w, [.setNodePoolAutoscaling nodePoolName sa])
              else (.ok (), w.applySetAutoscaling nodePoolName sa,
                    [.setNodePoolAutoscaling nodePoolName sa])
            else (.ok (), w, [])
          else
            if w.busy then (.ok (), w, [.setNodePoolSize nodePoolName savedConfig.NodeCount])
            else (.ok (), w.applySetSize nodePoolName savedConfig.NodeCount,
                  [.setNodePoolSize nodePoolName savedConfig.NodeCount])
        | none =>
          if w.busy then (.ok (), w, [.setNodePoolSize nodePoolName savedConfig.NodeCount])
          else (.ok (), w.applySetSize nodePoolName savedConfig.NodeCount,
                [.setNodePoolSize nodePoolName savedConfig.NodeCount])

/-- The EKS-side world: the Kubernetes nodes (labelled with node group and
region), the account's node groups, the saved-state store, and whether the
EKS API currently rejects updates with a resource-in-use error. -/
structure AWSWorld where
  nodes : List GoNode
  nodegroups : List (String × Nodegroup)
  configMaps : List (String × NodeGroupConfig)
  busy : Bool
deriving DecidableEq

/-- `AWSProvider.getNodesInNodeGroup`: nodes carrying the matching
`eks.amazonaws.com/nodegroup` label. -/
def AWSWorld.getNodesInNodeGroup (w : AWSWorld) (name : String) : List GoNode :=
  w.nodes.filter (fun n => n.poolLabel == name)

/-- `DescribeNodegroup` as a read of the world. -/
def AWSWorld.findNodegroup (w : AWSWorld) (name : String) : Option Nodegroup :=
  listLookup w.nodegroups name

/-- Effect of a successful `UpdateNodegroupConfig`: each provided scaling
field replaces the group's current one, absent fields are left alone. -/
def AWSWorld.applyUpdateScaling (w : AWSWorld) (name : String) (mn mx ds : Option Int) : AWSWorld :=
  { w with nodegroups := w.nodegroups.map (fun kv =>
      if kv.1 == name then
        (kv.1,
         { ScalingConfig := some
             ⟨mn.orElse (fun _ => kv.2.ScalingConfig.bind (fun sc => sc.MinSize)),
              mx.orElse (fun _ => kv.2.ScalingConfig.bind (fun sc => sc.MaxSize)),
              ds.orElse (fun _ => kv.2.ScalingConfig.bind (fun sc => sc.DesiredSize))⟩ })
      else kv) }

/-- `eksClient.UpdateNodegroupConfig` as issued by the AWS provider: the AWS
code has no busy handling, so a busy world answers with an error that the
callers propagate. -/
def AWSProvider.updateNodegroupConfig (w : AWSWorld) (name : String) (mn mx ds : Option Int) :
    Except ProviderError Unit × AWSWorld × List CloudCall :=
  if w.busy then
    (.error (.genericError ("ResourceInUseException")), w, [.updateNodegroupConfig name mn mx ds])
  else (.ok (), w.applyUpdateScaling name mn mx ds, [.updateNodegroupConfig name mn mx ds])

/-- `AWSProvider.ScaleNodePool`, translated from the source: resolve the
region from the first node of the group, save the group's current scaling
configuration (create-if-absent), pin autoscaling to the target count when a
minimum size is set, drain the excess nodes, and set the desired size. The
code performs no early return when the group is already at the target count,
and a nil scaling configuration or desired size (dereferenced unchecked in
Go) is modelled as an error. -/
def AWSProvider.ScaleNodePool (w : AWSWorld) (nodeGroupName : String) (count : Int) :
    Except ProviderError Unit × AWSWorld × List CloudCall :=
  match w.getNodesInNodeGroup nodeGroupName with
  | [] => (.error (.genericError ("no nodes found in node group")), w, [])
  | n0 :: _ =>
    if n0.regionLabel == "" then (.error (.genericError ("region label not found")), w, [])
    else
      match w.findNodegroup nodeGroupName with
      | none => (.error (.genericError ("failed to describe node group")), w, [])
      | some ng =>
        match ng.ScalingConfig with
        | none => (.error (.genericError ("nil scaling config")), w, [])
        | some sc =>
          match sc.DesiredSize with
          | none => (.error (.genericError ("nil desired size")), w, [])
          | some ds =>
            let cfg : NodeGroupConfig := ⟨ds, some ⟨sc.MinSize, sc.MaxSize, none⟩⟩
            let w2 : AWSWorld :=
              { w with configMaps := createIfAbsent w.configMaps (savedStateKey nodeGroupName) cfg }
            let saveCalls := [CloudCall.createConfigMap (savedStateKey nodeGroupName)]
            let step1 :=
              match sc.MinSize with
              | some _ =>
                AWSProvider.updateNodegroupConfig w2 nodeGroupName (some count) (some count) (some count)
              | none => ((.ok () : Except ProviderError Unit), w2, ([] : List CloudCall))
            match step1 with
            | (.error e, w3, calls1) => (.error e, w3, saveCalls ++ calls1)
            | (.ok _, w3, calls1) =>
              let nodesInGroup := w3.getNodesInNodeGroup nodeGroupName
              let drainCalls := (nodesInGroup.take (((nodesInGroup.length : Int) - count).toNat)).map
                (fun n => CloudCall.drainNode n.Name)
              match AWSProvider.updateNodegroupConfig w3 nodeGroupName none none (some count) with
              | (r, w4, calls2) => (r, w4, saveCalls ++ calls1 ++ drainCalls ++ calls2)

/-- `AWSProvider.RestoreNodePool`, translated from the source: read the
saved record (missing means `NoSavedState`), build the update from the saved
desired size plus the saved min/max bounds when present, resolve the region
from the first node, and issue `UpdateNodegroupConfig` unconditionally — the
code performs no saved-versus-live comparison and no busy handling. -/
def AWSProvider.RestoreNodePool (w : AWSWorld) (nodeGroupName : String) :
    Except ProviderError Unit × AWSWorld × List CloudCall :=
  match listLookup w.configMaps (savedStateKey nodeGroupName) with
  | none => (.error (.noSavedState nodeGroupName), w, [])
  | some savedConfig =>
    let mn := savedConfig.Autoscaling.bind (fun a => a.MinSize)
    let mx := savedConfig.Autoscaling.bind (fun a => a.MaxSize)
    match w.getNodesInNodeGroup nodeGroupName with
    | [] => (.error (.genericError ("no nodes found in node group")), w, [])
    | n0 :: _ =>
      if n0.regionLabel == "" then (.error (.genericError ("region label not found")), w, [])
      else AWSProvider.updateNodegroupConfig w nodeGroupName mn mx (some savedConfig.DesiredSize)

/-! ## The scaling controller's reconciliation tick -/

/-- `config.NodeSpec` (fields used by the reconcile loop). -/
structure NodeSpec where
  NodePoolName : String
  CloudProvider : String
  OffTimeCount : Int
deriving DecidableEq

/-- A provider operation invoked by the reconcile loop. -/
inductive ReconcileAction where
  | restoreNodePool (pool : String)
  | scaleNodePool (pool : String) (count : Int)
deriving DecidableEq

/-- The log lines emitted by the reconcile loop (besides debug output). -/
inductive LogEntry where
  | errorCheckingWorkTime
  | noProviderWarning (pool : String)
  | noSavedStateWarning (pool : String)
  | restoreError (pool : String)
  | scaleError (pool : String)
deriving DecidableEq

/-- The per-pool loop of `ScalingController.reconcile`: a pool without a
provider is skipped with a warning; during work hours restore is called and
its error only logged (`NoSavedState` at warning level); during off hours
scale-down is called and its error only logged. The next pool is processed
regardless of the previous pool's outcome. -/
def reconcileLoop (isWork : Bool) (hasProvider : String → Bool)
    (restoreResult : String → Except ProviderError Unit)
    (scaleResult : String → Int → Except ProviderError Unit) :
    List NodeSpec → List ReconcileAction × List LogEntry
  | [] => ([], [])
  | spec :: rest =>
    let tail := reconcileLoop isWork hasProvider restoreResult scaleResult rest
    if ! hasProvider spec.NodePoolName then
      (tail.1, .noProviderWarning spec.NodePoolName :: tail.2)
    else if isWork then
      let logs :=
        match restoreResult spec.NodePoolName with
        | .ok _ => []
        | .error (.noSavedState _) => [LogEntry.noSavedStateWarning spec.NodePoolName]
        | .error (.genericError _) => [LogEntry.restoreError spec.NodePoolName]
      (.restoreNodePool spec.NodePoolName :: tail.1, logs ++ tail.2)
    else
      let logs :=
        match scaleResult spec.NodePoolName spec.OffTimeCount with
        | .ok _ => []
        | .error _ => [LogEntry.scaleError spec.NodePoolName]
      (.scaleNodePool spec.NodePoolName spec.OffTimeCount :: tail.1, logs ++ tail.2)

/-- `ScalingController.reconcile`, translated from the source: evaluate the
composite work-time verdict; on error log and return without touching any
pool; otherwise run the per-pool loop over the configured specs in order.
The providers map is modelled by its domain (`hasProvider`) and the per-pool
call outcomes (`restoreResult`, `scaleResult`); the returned first component
is the sequence of provider operations invoked. -/
def ScalingController.reconcile (specs : List NodeSpec) (hasProvider : String → Bool)
    (restoreResult : String → Except ProviderError Unit)
    (scaleResult : String → Int → Except ProviderError Unit)
    (isWorkTime : Except SchedError Bool) : List ReconcileAction × List LogEntry :=
  match isWorkTime with
  | .error _ => ([], [LogEntry.errorCheckingWorkTime])
  | .ok isWork => reconcileLoop isWork hasProvider restoreResult scaleResult specs

/-! ## Properties of the static provider -/

/-- With a resolvable zone and well-formed bounds, `IsWorkTime` returns the
conjunction of the weekday test and the two strict within-day comparisons. -/
theorem static_isWorkTime_eq (p : StaticProvider) (loc : Location)
    (sh sm eh em : Nat) (now : Instant)
    (hz : p.TimeZone = some loc)
    (hs : parseHHMM p.StartTime = some (sh, sm))
    (he : parseHHMM p.EndTime = some (eh, em)) :
    p.IsWorkTime now = .ok (p.WorkDays (toLocal loc now).weekday &&
      (decide (hmToNs sh sm < (toLocal loc now).ofDayNs) &&
       decide ((toLocal loc now).ofDayNs < hmToNs eh em))) := by
  unfold StaticProvider.IsWorkTime
  rw [hz, hs, he]
  cases hwd : p.WorkDays (toLocal loc now).weekday with
  | false => simp [hwd]
  | true =>
    simp only [hwd, Bool.not_true, Bool.false_eq_true, if_false, Bool.true_and,
      Except.ok.injEq]
    simp [LocalTime.after, LocalTime.before, lt_irrefl]

/-- C1: for every input time, the static provider returns true iff the
zone-converted weekday is in the work-day set and the converted time is
strictly after the start bound and strictly before the end bound anchored to
the same calendar day; at exactly the start or end instant it returns false,
and on a non-work weekday it returns false regardless of the time of day. -/
theorem C1_static_isWorkTime_characterization (p : StaticProvider) (loc : Location)
    (sh sm eh em : Nat) (now : Instant)
    (hz : p.TimeZone = some loc)
    (hs : parseHHMM p.StartTime = some (sh, sm))
    (he : parseHHMM p.EndTime = some (eh, em)) :
    (p.IsWorkTime now = .ok true ↔
      (p.WorkDays (toLocal loc now).weekday = true ∧
       hmToNs sh sm < (toLocal loc now).ofDayNs ∧
       (toLocal loc now).ofDayNs < hmToNs eh em))
    ∧ (((toLocal loc now).ofDayNs = hmToNs sh sm ∨ (toLocal loc now).ofDayNs = hmToNs eh em) →
        p.IsWorkTime now = .ok false)
    ∧ (p.WorkDays (toLocal loc now).weekday = false → p.IsWorkTime now = .ok false) := by
  rw [static_isWorkTime_eq p loc sh sm eh em now hz hs he]
  refine ⟨?_, ?_, ?_⟩
  · simp only [Except.ok.injEq, Bool.and_eq_true, decide_eq_true_eq]
  · intro hb
    simp only [Except.ok.injEq, Bool.and_eq_false_iff, decide_eq_false_iff_not]
    right
    omega
  · intro hwd
    simp [hwd]

/-- Witness for C1 at a concrete provider and time: 1970-01-01 (a Thursday)
at 10:00 UTC, window 09:00–17:00, Thursday in the work-day set. -/
def c1Provider : StaticProvider :=
  ⟨"09:00", "17:00", some ⟨0⟩, fun d => d == 4⟩

theorem C1_witness :
    StaticProvider.IsWorkTime c1Provider 36000000000000 = .ok true := by
  exact (C1_static_isWorkTime_characterization c1Provider ⟨0⟩ 9 0 17 0 36000000000000
    rfl (by decide) (by decide)).1.mpr ⟨by decide, by decide, by decide⟩

/-- C10: when the configured end time-of-day is not later than the start
time-of-day (for example an intended overnight window), `IsWorkTime` is
false for every input time, because both bounds are anchored to the same
calendar day and the strict conjunction is unsatisfiable. -/
theorem C10_degenerate_window_never_work (p : StaticProvider) (loc : Location)
    (sh sm eh em : Nat) (now : Instant)
    (hz : p.TimeZone = some loc)
    (hs : parseHHMM p.StartTime = some (sh, sm))
    (he : parseHHMM p.EndTime = some (eh, em))
    (hle : eh * 60 + em ≤ sh * 60 + sm) :
    p.IsWorkTime now = .ok false := by
  rw [static_isWorkTime_eq p loc sh sm eh em now hz hs he]
  have hmono : hmToNs eh em ≤ hmToNs sh sm := by
    simp only [hmToNs]
    push_cast
    omega
  simp only [Except.ok.injEq, Bool.and_eq_false_iff, decide_eq_false_iff_not]
  right
  omega

/-- Witness for C10: the overnight window 22:00–06:00 yields false at a
concrete mid-window instant. -/
def c10Provider : StaticProvider :=
  ⟨"22:00", "06:00", some ⟨0⟩, fun _ => true⟩

theorem C10_witness :
    StaticProvider.IsWorkTime c10Provider 0 = .ok false := by
  exact C10_degenerate_window_never_work c10Provider ⟨0⟩ 22 0 6 0 0
    rfl (by decide) (by decide) (by decide)

/-! ## Properties of the composite provider -/

/-- C2: the composite verdict is the ordered logical AND of the members:
it is true iff every member returns true, and as soon as a member deviates
from `.ok true` (returns false or an error) while all earlier members
returned true, the composite result is exactly that member's result,
independent of every later member. -/
theorem C2_composite_and_semantics (t : Instant) :
    (∀ ps : List (Instant → Except SchedError Bool),
       (CompositeProvider.mk ps).IsWorkTime t = .ok true ↔ ∀ q ∈ ps, q t = .ok true)
    ∧ (∀ (ps1 : List (Instant → Except SchedError Bool))
         (q : Instant → Except SchedError Bool)
         (ps2 : List (Instant → Except SchedError Bool)),
       (∀ r ∈ ps1, r t = .ok true) → q t ≠ .ok true →
       (CompositeProvider.mk (ps1 ++ q :: ps2)).IsWorkTime t = q t) := by
  constructor
  · intro ps
    induction ps with
    | nil => simp [CompositeProvider.IsWorkTime, compositeLoop]
    | cons q qs ih =>
      simp only [CompositeProvider.IsWorkTime, compositeLoop] at ih ⊢
      cases hq : q t with
      | error e => simp [hq]
      | ok b =>
        cases b with
        | false => simp [hq]
        | true => simp [hq, ih]
  · intro ps1 q ps2 h1 h2
    induction ps1 with
    | nil =>
      simp only [List.nil_append, CompositeProvider.IsWorkTime, compositeLoop]
      cases hq : q t with
      | error e => rfl
      | ok b =>
        cases b with
        | false => rfl
        | true => exact absurd hq h2
    | cons r rs ih =>
      have hr : r t = .ok true := h1 r (by simp)
      simp only [List.cons_append, CompositeProvider.IsWorkTime, compositeLoop, hr] at ih ⊢
      exact ih (fun x hx => h1 x (by simp [hx]))

/-- Witness for C2: a member returning false after a true member determines
the composite result, with an erroring member behind it left unevaluated. -/
theorem C2_witness :
    (CompositeProvider.mk
      [fun _ => .ok true, fun _ => .ok false,
       fun _ => .error .invalidTimeZone]).IsWorkTime 0 = .ok false := by
  exact (C2_composite_and_semantics 0).2
    [fun _ => .ok true] (fun _ => .ok false) [fun _ => .error .invalidTimeZone]
    (by intro r hr; simp at hr; rw [hr]) (by simp)

/-! ## Properties of the calendar lookup -/

/-- The Google bucket scan reports not-work-time exactly when some bucketed
event's `[start, end)` range contains the instant. -/
theorem googleScan_false_iff (t : Instant) (evs : List cachedEvent) :
    googleScan t evs = false ↔ ∃ e ∈ evs, ¬ t < e.Start ∧ t < e.End := by
  induction evs with
  | nil => simp [googleScan]
  | cons e rest ih =>
    by_cases h : ¬ t < e.Start ∧ t < e.End
    · simp only [googleScan, if_pos h]
      constructor
      · intro _
        exact ⟨e, by simp, h⟩
      · intro _
        trivial
    · simp only [googleScan, if_neg h, ih]
      constructor
      · rintro ⟨x, hx, hxc⟩
        exact ⟨x, by simp [hx], hxc⟩
      · rintro ⟨x, hx, hxc⟩
        rcases List.mem_cons.mp hx with rfl | hx2
        · exact absurd hxc h
        · exact ⟨x, hx2, hxc⟩

/-- 2023-04-29T00:00 as a day-aligned instant (day 19476 since the epoch). -/
def apr29Midnight : Instant := 19476 * 86400000000000

/-- 2023-05-04T00:00 as a day-aligned instant (day 19481 since the epoch). -/
def may4Midnight : Instant := 19481 * 86400000000000

/-- An ICS provider whose cache holds one holiday event spanning
`[2023-04-29T00:00, 2023-05-04T00:00)`, bucketed by `syncEvents`. -/
def icsHolidayExample : ICSCalendarProvider :=
  ⟨[], [fun s => s == "Labor Day (holiday)"],
   buildICSIndex [⟨some apr29Midnight, some may4Midnight, some ("Labor Day (holiday)")⟩]⟩

/-- C3: a day with no cached bucket defaults to work time in both calendar
variants; an event counts as containing the instant exactly when the instant
is at or after its start and strictly before its end; and the holiday event
`[2023-04-29T00:00, 2023-05-04T00:00)` yields false at its start instant and
true at its (exclusive) end instant. -/
theorem C3_calendar_day_lookup :
    (∀ (g : GoogleCalendarProvider) (t : Instant),
       g.events (dateKey t) = none → g.IsWorkTime t = .ok true)
    ∧ (∀ (g : GoogleCalendarProvider) (t : Instant) (evs : List cachedEvent),
       g.events (dateKey t) = some evs →
       (g.IsWorkTime t = .ok false ↔ ∃ e ∈ evs, e.Start ≤ t ∧ t < e.End))
    ∧ (∀ (p : ICSCalendarProvider) (t : Instant),
       p.events (dateKey t) = none → p.IsWorkTime t = .ok true)
    ∧ (icsHolidayExample.IsWorkTime apr29Midnight = .ok false
       ∧ icsHolidayExample.IsWorkTime may4Midnight = .ok true) := by
  refine ⟨?_, ?_, ?_, ?_, ?_⟩
  · intro g t hev
    simp [GoogleCalendarProvider.IsWorkTime, hev]
  · intro g t evs hev
    simp only [GoogleCalendarProvider.IsWorkTime, hev, Except.ok.injEq]
    rw [googleScan_false_iff]
    simp [not_lt]
  · intro p t hev
    simp [ICSCalendarProvider.IsWorkTime, hev]
  · rfl
  · rfl

/-- Witness for C3 at a concrete provider with an empty cache. -/
def gcalEmptyCache : GoogleCalendarProvider := ⟨"off-time", fun _ => none⟩

theorem C3_witness : gcalEmptyCache.IsWorkTime 0 = .ok true := by
  exact C3_calendar_day_lookup.1 gcalEmptyCache 0 rfl

/-- C4: in the ICS bucket scan, holiday patterns are tested before work-day
patterns, so an in-range event matching a holiday pattern decides
not-work-time even if it also matches a work-day pattern; in-range events
matching neither pattern set are skipped; and if no event decides the
result, the fallback is work time. -/
theorem C4_ics_pattern_precedence (holidayPats workPats : List (String → Bool)) (t : Instant) :
    (∀ (p : ICSCalendarProvider) (evs : List calendarEvent),
       p.events (dateKey t) = some evs → p.holidayPatterns = holidayPats →
       p.workPatterns = workPats →
       p.IsWorkTime t = icsScan holidayPats workPats t evs)
    ∧ (∀ (evs1 : List calendarEvent) (e : calendarEvent) (evs2 : List calendarEvent),
       (∀ x ∈ evs1, ¬ ((¬ t < x.Start ∧ t < x.End) ∧
          (holidayPats.any (fun pat => pat x.Summary) = true ∨
           workPats.any (fun pat => pat x.Summary) = true))) →
       (¬ t < e.Start ∧ t < e.End) →
       holidayPats.any (fun pat => pat e.Summary) = true →
       icsScan holidayPats workPats t (evs1 ++ e :: evs2) = .ok false)
    ∧ (∀ evs : List calendarEvent,
       (∀ x ∈ evs, ¬ ((¬ t < x.Start ∧ t < x.End) ∧
          (holidayPats.any (fun pat => pat x.Summary) = true ∨
           workPats.any (fun pat => pat x.Summary) = true))) →
       icsScan holidayPats workPats t evs = .ok true) := by
  refine ⟨?_, ?_, ?_⟩
  · intro p evs hev hh hw
    simp [ICSCalendarProvider.IsWorkTime, hev, hh, hw]
  · intro evs1 e evs2 hskip hrange hhol
    induction evs1 with
    | nil => simp [icsScan, hrange, hhol]
    | cons x xs ih =>
      have hx := hskip x (by simp)
      by_cases hr : ¬ t < x.Start ∧ t < x.End
      · have hnone : ¬ (holidayPats.any (fun pat => pat x.Summary) = true ∨
            workPats.any (fun pat => pat x.Summary) = true) := fun hc => hx ⟨hr, hc⟩
        push_neg at hnone
        simp only [List.cons_append, icsScan, if_pos hr, hnone.1, hnone.2,
          Bool.false_eq_true, if_false]
        exact ih (fun y hy => hskip y (by simp [hy]))
      · simp only [List.cons_append, icsScan, if_neg hr]
        exact ih (fun y hy => hskip y (by simp [hy]))
  · intro evs hskip
    induction evs with
    | nil => simp [icsScan]
    | cons x xs ih =>
      have hx := hskip x (by simp)
      by_cases hr : ¬ t < x.Start ∧ t < x.End
      · have hnone : ¬ (holidayPats.any (fun pat => pat x.Summary) = true ∨
            workPats.any (fun pat => pat x.Summary) = true) := fun hc => hx ⟨hr, hc⟩
        push_neg at hnone
        simp only [icsScan, if_pos hr, hnone.1, hnone.2, Bool.false_eq_true, if_false]
        exact ih (fun y hy => hskip y (by simp [hy]))
      · simp only [icsScan, if_neg hr]
        exact ih (fun y hy => hskip y (by simp [hy]))

/-- Witness for C4: an event matching both a holiday and a work-day pattern
decides not-work-time. -/
theorem C4_witness :
    icsScan [fun _ => true] [fun _ => true] 0 [⟨0, 1, "both"⟩] = .ok false := by
  exact (C4_ics_pattern_precedence [fun _ => true] [fun _ => true] 0).2.1
    [] ⟨0, 1, "both"⟩ [] (by simp) (by exact ⟨by decide, by decide⟩) (by simp)

/-! ## Refresh-failure behaviour of the calendar sync -/

/-- C5 (amended): on a failed fetch or parse the ICS variant returns the
error with its previous cache intact, while the Google variant — having
cleared its cache at the top of the sync, before fetching — returns the
error with an empty cache; on a successful refresh both variants replace
the index with one built solely from the fetched events. -/
theorem C5_sync_failure_semantics :
    (∀ (p : ICSCalendarProvider) (msg : String), p.syncEvents (.error msg) = (p, some msg))
    ∧ (∀ (g : GoogleCalendarProvider) (msg : String), g.offTimeEvents ≠ "" →
       g.syncEvents (.error msg) = ({ g with events := fun _ => none }, some msg))
    ∧ (∀ (p : ICSCalendarProvider) (raw : List RawICSEvent),
       p.syncEvents (.ok raw) = ({ p with events := buildICSIndex raw }, none))
    ∧ (∀ (g : GoogleCalendarProvider) (items : List RawGoogleEvent), g.offTimeEvents ≠ "" →
       g.syncEvents (.ok items) = ({ g with events := buildGoogleIndex items }, none)) := by
  refine ⟨fun p msg => rfl, ?_, fun p raw => rfl, ?_⟩
  · intro g msg h
    simp [GoogleCalendarProvider.syncEvents, h]
  · intro g items h
    simp [GoogleCalendarProvider.syncEvents, h]

/-- An ICS provider with a non-empty previously synced cache. -/
def icsPrior : ICSCalendarProvider :=
  ⟨[], [], fun k => if k = 0 then some [⟨0, 86400000000000, "Holiday"⟩] else none⟩

/-- A Google provider with a non-empty previously synced cache. -/
def gcalPrior : GoogleCalendarProvider :=
  ⟨"off-time", fun k => if k = 0 then some [⟨0, 86400000000000⟩] else none⟩

/-- C5 counterexample: after a failed refresh the Google variant's
previously cached bucket is gone (the claim says that variant keeps serving
it), while the ICS variant's previously cached bucket is still served (the
claim says that variant clears it). -/
theorem C5_counterexample :
    gcalPrior.events 0 = some [⟨0, 86400000000000⟩]
    ∧ (gcalPrior.syncEvents (.error ("fetch failed"))).1.events 0 = none
    ∧ (icsPrior.syncEvents (.error ("fetch failed"))).1.events 0
        = some [⟨0, 86400000000000, "Holiday"⟩] := by
  exact ⟨rfl, rfl, rfl⟩

/-- Witness for C5 at a concrete Google provider with a non-empty query. -/
theorem C5_witness :
    (GoogleCalendarProvider.syncEvents ⟨"q", fun _ => none⟩ (.error ("boom"))).2
      = some ("boom") := by
  rw [C5_sync_failure_semantics.2.1 ⟨"q", fun _ => none⟩ ("boom") (by decide)]

/-! ## Properties of the reconciliation tick -/

/-- C9: on a work-time evaluation error the tick performs no provider call
on any pool; otherwise the calls performed are exactly one per configured
pool that has a provider, in configuration order, independently of every
per-pool call outcome (so no pool's error, including `NoSavedState`, stops
the remaining pools from being processed). -/
theorem C9_reconcile_isolation (specs : List NodeSpec) (hasProvider : String → Bool)
    (rr : String → Except ProviderError Unit)
    (sr : String → Int → Except ProviderError Unit) :
    (∀ e : SchedError,
       (ScalingController.reconcile specs hasProvider rr sr (.error e)).1 = [])
    ∧ (∀ isWork : Bool,
       (ScalingController.reconcile specs hasProvider rr sr (.ok isWork)).1 =
         specs.filterMap (fun spec =>
           if hasProvider spec.NodePoolName then
             some (if isWork then ReconcileAction.restoreNodePool spec.NodePoolName
                   else ReconcileAction.scaleNodePool spec.NodePoolName spec.OffTimeCount)
           else none)) := by
  constructor
  · intro e
    rfl
  · intro isWork
    simp only [ScalingController.reconcile]
    induction specs with
    | nil => simp [reconcileLoop]
    | cons spec rest ih =>
      simp only [reconcileLoop, List.filterMap_cons]
      cases hp : hasProvider spec.NodePoolName with
      | false => simp [hp, ih]
      | true =>
        cases isWork with
        | false => simp [hp, ih]
        | true => simp [hp, ih]

/-! ## Scale-down idempotence -/

/-- C6 (amended): the GKE variant returns immediately, with no error and no
mutation call, when the pool's live node count already equals the requested
count; the EKS variant has no such check (see the counterexample). -/
theorem C6_scaledown_idempotent_gke (w : GKEWorld) (nodePoolName : String)
    (count : Int) (pool : NodePool)
    (hp : w.findPool nodePoolName = some pool)
    (hc : ((w.nodes.filter (fun n => n.poolLabel == nodePoolName)).length : Int) = count) :
    GKEProvider.ScaleNodePool w nodePoolName count = (.ok (), w, []) := by
  unfold GKEProvider.ScaleNodePool
  rw [hp]
  simp [hc]

/-- A GKE world whose pool is already at the requested size. -/
def gkeAtTarget : GKEWorld :=
  ⟨[⟨"p1", 2, none⟩], [⟨"n1", "p1", false, ""⟩, ⟨"n2", "p1", true, ""⟩], [], false⟩

theorem C6_witness :
    GKEProvider.ScaleNodePool gkeAtTarget "p1" 2 = (.ok (), gkeAtTarget, []) := by
  exact C6_scaledown_idempotent_gke gkeAtTarget "p1" 2 ⟨"p1", 2, none⟩ rfl (by decide)

/-- An EKS world whose node group already has exactly the requested one
member. -/
def awsAtTarget : AWSWorld :=
  ⟨[⟨"n1", "ng1", false, "us-east-1"⟩],
   [("ng1", ⟨some ⟨some 1, some 3, some 1⟩⟩)], [], false⟩

/-- C6 counterexample: with the live member count already equal to the
requested count (one node, count 1), the EKS variant still writes saved
state and issues two `UpdateNodegroupConfig` mutation calls instead of
returning immediately with none. -/
theorem C6_counterexample :
    ((awsAtTarget.nodes.filter (fun n => n.poolLabel == "ng1")).length : Int) = 1
    ∧ (AWSProvider.ScaleNodePool awsAtTarget "ng1" 1).2.2 =
        [CloudCall.createConfigMap ("bmw-saver-nodepool-ng1"),
         CloudCall.updateNodegroupConfig "ng1" (some 1) (some 1) (some 1),
         CloudCall.updateNodegroupConfig "ng1" none none (some 1)]
    ∧ (AWSProvider.ScaleNodePool awsAtTarget "ng1" 1).1 = .ok () := by
  exact ⟨by decide, rfl, rfl⟩

/-! ## Restore idempotence -/

/-- A name-preserving per-pool update commutes with the name lookup. -/
theorem findPoolIn_updatePools (f : NodePool → NodePool) (name : String)
    (hf : ∀ p, (f p).Name = p.Name) (l : List NodePool) :
    findPoolIn (updatePools f name l) name = (findPoolIn l name).map f := by
  induction l with
  | nil => rfl
  | cons p rest ih =>
    by_cases h : (p.Name == name) = true
    · simp only [updatePools, findPoolIn, h, if_true, hf p]
      rfl
    · simp only [updatePools, findPoolIn, h, if_false, Bool.false_eq_true, ih]

/-- `SetSize` only changes the looked-up pool's node count. -/
theorem findPool_applySetSize (w : GKEWorld) (name : String) (c : Int) :
    (w.applySetSize name c).findPool name =
      (w.findPool name).map (fun p => { p with InitialNodeCount := c }) := by
  exact findPoolIn_updatePools (fun p => { p with InitialNodeCount := c }) name
    (fun p => rfl) w.nodePools

/-- `SetAutoscaling` only changes the looked-up pool's autoscaling field. -/
theorem findPool_applySetAutoscaling (w : GKEWorld) (name : String) (a : NodePoolAutoscaling) :
    (w.applySetAutoscaling name a).findPool name =
      (w.findPool name).map (fun p => { p with Autoscaling := some a }) := by
  exact findPoolIn_updatePools (fun p => { p with Autoscaling := some a }) name
    (fun p => rfl) w.nodePools

/-- C7 (amended): for the GKE variant, when the saved state has autoscaling
enabled or the live pool's autoscaling-enabled-ness already matches the
saved state, a restore issues at most one mutation call and leaves the pool
in a state the next restore recognises as already restored, so the second
of two successive restores issues no API call. Outside that condition the
GKE variant repeats a size-set on every restore, and the EKS variant issues
a mutation on every successful restore (see the counterexample). -/
theorem C7_restore_idempotent_gke (w : GKEWorld) (name : String)
    (savedConfig : NodePoolConfig) (currentPool : NodePool)
    (hb : w.busy = false)
    (hs : listLookup w.configMaps (savedStateKey name) = some savedConfig)
    (hp : w.findPool name = some currentPool)
    (hcond : savedConfig.savedAutoscalingEnabled = true ∨
             autoscalingEnabledMatch currentPool savedConfig = true) :
    (GKEProvider.RestoreNodePool w name).1 = .ok ()
    ∧ (GKEProvider.RestoreNodePool w name).2.2.length ≤ 1
    ∧ (GKEProvider.RestoreNodePool (GKEProvider.RestoreNodePool w name).2.1 name).2.2 = [] := by
  by_cases hm : (autoscalingEnabledMatch currentPool savedConfig &&
      nodeCountMatch currentPool savedConfig) = true
  · have h1 : GKEProvider.RestoreNodePool w name = (.ok (), w, []) := by
      simp [GKEProvider.RestoreNodePool, hs, hp, hm]
    rw [h1]
    exact ⟨rfl, by simp, by simp [GKEProvider.RestoreNodePool, hs, hp, hm]⟩
  · match hsa : savedConfig.Autoscaling with
    | some sa =>
      by_cases hen : sa.Enabled = true
      · have hsen : savedConfig.savedAutoscalingEnabled = true := by
          simp [NodePoolConfig.savedAutoscalingEnabled, hsa, hen]
        have hncm : nodeCountMatch currentPool savedConfig = true := by
          simp [nodeCountMatch, hsen]
        have ham : autoscalingEnabledMatch currentPool savedConfig = false := by
          cases hx : autoscalingEnabledMatch currentPool savedConfig with
          | false => rfl
          | true => exact absurd (by rw [hx, hncm]; rfl) hm
        have h1 : GKEProvider.RestoreNodePool w name =
            (.ok (), w.applySetAutoscaling name sa, [.setNodePoolAutoscaling name sa]) := by
          simp [GKEProvider.RestoreNodePool, hs, hp, ham, hsa, hen, hb]
        rw [h1]
        refine ⟨rfl, by simp, ?_⟩
        have hs2 : listLookup (w.applySetAutoscaling name sa).configMaps (savedStateKey name)
            = some savedConfig := hs
        have hp2 : (w.applySetAutoscaling name sa).findPool name =
            some { currentPool with Autoscaling := some sa } := by
          rw [findPool_applySetAutoscaling, hp]
          rfl
        have ham2 : autoscalingEnabledMatch { currentPool with Autoscaling := some sa }
            savedConfig = true := by
          simp [autoscalingEnabledMatch, hsa]
        have hncm2 : nodeCountMatch { currentPool with Autoscaling := some sa }
            savedConfig = true := by
          simp [nodeCountMatch, NodePoolConfig.savedAutoscalingEnabled, hsa, hen]
        simp [GKEProvider.RestoreNodePool, hs2, hp2, ham2, hncm2]
      · have hsen : savedConfig.savedAutoscalingEnabled = false := by
          simp only [NodePoolConfig.savedAutoscalingEnabled, hsa]
          exact Bool.not_eq_true _ ▸ (Bool.eq_false_iff.mpr hen)
        have ham : autoscalingEnabledMatch currentPool savedConfig = true := by
          rcases hcond with hc | hc
          · rw [hsen] at hc
            exact absurd hc (by simp)
          · exact hc
        have hncm : nodeCountMatch currentPool savedConfig = false := by
          cases hx : nodeCountMatch currentPool savedConfig with
          | false => rfl
          | true => exact absurd (by rw [ham, hx]; rfl) hm
        have h1 : GKEProvider.RestoreNodePool w name =
            (.ok (), w.applySetSize name savedConfig.NodeCount,
             [.setNodePoolSize name savedConfig.NodeCount]) := by
          simp [GKEProvider.RestoreNodePool, hs, hp, hncm, hsa, hen, hb]
        rw [h1]
        refine ⟨rfl, by simp, ?_⟩
        have hs2 : listLookup (w.applySetSize name savedConfig.NodeCount).configMaps
            (savedStateKey name) = some savedConfig := hs
        have hp2 : (w.applySetSize name savedConfig.NodeCount).findPool name =
            some { currentPool with InitialNodeCount := savedConfig.NodeCount } := by
          rw [findPool_applySetSize, hp]
          rfl
        have ham2 : autoscalingEnabledMatch
            { currentPool with InitialNodeCount := savedConfig.NodeCount } savedConfig = true := by
          simpa [autoscalingEnabledMatch] using ham
        have hncm2 : nodeCountMatch
            { currentPool with InitialNodeCount := savedConfig.NodeCount } savedConfig = true := by
          simp [nodeCountMatch]
        simp [GKEProvider.RestoreNodePool, hs2, hp2, ham2, hncm2]
    | none =>
      have hsen : savedConfig.savedAutoscalingEnabled = false := by
        simp [NodePoolConfig.savedAutoscalingEnabled, hsa]
      have ham : autoscalingEnabledMatch currentPool savedConfig = true := by
        rcases hcond with hc | hc
        · rw [hsen] at hc
          exact absurd hc (by simp)
        · exact hc
      have hncm : nodeCountMatch currentPool savedConfig = false := by
        cases hx : nodeCountMatch currentPool savedConfig with
        | false => rfl
        | true => exact absurd (by rw [ham, hx]; rfl) hm
      have h1 : GKEProvider.RestoreNodePool w name =
          (.ok (), w.applySetSize name savedConfig.NodeCount,
           [.setNodePoolSize name savedConfig.NodeCount]) := by
        simp [GKEProvider.RestoreNodePool, hs, hp, hncm, hsa, hb]
      rw [h1]
      refine ⟨rfl, by simp, ?_⟩
      have hs2 : listLookup (w.applySetSize name savedConfig.NodeCount).configMaps
          (savedStateKey name) = some savedConfig := hs
      have hp2 : (w.applySetSize name savedConfig.NodeCount).findPool name =
          some { currentPool with InitialNodeCount := savedConfig.NodeCount } := by
        rw [findPool_applySetSize, hp]
        rfl
      have ham2 : autoscalingEnabledMatch
          { currentPool with InitialNodeCount := savedConfig.NodeCount } savedConfig = true := by
        simpa [autoscalingEnabledMatch] using ham
      have hncm2 : nodeCountMatch
          { currentPool with InitialNodeCount := savedConfig.NodeCount } savedConfig = true := by
        simp [nodeCountMatch]
      simp [GKEProvider.RestoreNodePool, hs2, hp2, ham2, hncm2]

/-- A GKE world one restore away from its saved state (autoscaling off in
both the saved and the live state, counts differing). -/
def gkeRestorable : GKEWorld :=
  ⟨[⟨"p1", 1, none⟩], [], [("bmw-saver-nodepool-p1", ⟨5, none⟩)], false⟩

theorem C7_witness :
    (GKEProvider.RestoreNodePool gkeRestorable "p1").1 = .ok ()
    ∧ (GKEProvider.RestoreNodePool gkeRestorable "p1").2.2.length ≤ 1
    ∧ (GKEProvider.RestoreNodePool
        (GKEProvider.RestoreNodePool gkeRestorable "p1").2.1 "p1").2.2 = [] := by
  exact C7_restore_idempotent_gke gkeRestorable "p1" ⟨5, none⟩ ⟨"p1", 1, none⟩
    rfl rfl rfl (Or.inr (by decide))

/-- An EKS world with a saved record differing from the live group. -/
def awsRestorable : AWSWorld :=
  ⟨[⟨"n1", "ng1", false, "us-east-1"⟩],
   [("ng1", ⟨some ⟨some 1, some 3, some 2⟩⟩)],
   [("bmw-saver-nodepool-ng1", ⟨3, some ⟨some 1, some 3, none⟩⟩)], false⟩

/-- A GKE world whose saved state has autoscaling off while the live pool
has autoscaling enabled: the size-set restore never makes the two match. -/
def gkeMismatch : GKEWorld :=
  ⟨[⟨"p1", 3, some ⟨true, 1, 10⟩⟩], [], [("bmw-saver-nodepool-p1", ⟨5, none⟩)], false⟩

/-- C7 counterexample: two successive restores with no intervening
scale-down issue two provider mutation calls — on the EKS variant (which
never compares saved and live state), and also on the GKE variant when the
saved state has autoscaling off while the live pool has it enabled. -/
theorem C7_counterexample :
    ((AWSProvider.RestoreNodePool awsRestorable "ng1").2.2 =
        [CloudCall.updateNodegroupConfig "ng1" (some 1) (some 3) (some 3)]
     ∧ (AWSProvider.RestoreNodePool
          (AWSProvider.RestoreNodePool awsRestorable "ng1").2.1 "ng1").2.2 =
        [CloudCall.updateNodegroupConfig "ng1" (some 1) (some 3) (some 3)])
    ∧ ((GKEProvider.RestoreNodePool gkeMismatch "p1").2.2 =
        [CloudCall.setNodePoolSize "p1" 5]
     ∧ (GKEProvider.RestoreNodePool
          (GKEProvider.RestoreNodePool gkeMismatch "p1").2.1 "p1").2.2 =
        [CloudCall.setNodePoolSize "p1" 5]) := by
  exact ⟨⟨rfl, rfl⟩, ⟨rfl, rfl⟩⟩

/-! ## Cluster-busy handling -/

/-- A create-if-absent write against an existing record is a no-op. -/
theorem createIfAbsent_of_mem {α : Type} (l : List (String × α)) (k : String) (v x : α)
    (h : listLookup l k = some v) : createIfAbsent l k x = l := by
  simp [createIfAbsent, h]

/-- C8 (amended): for the GKE variant a busy cloud API is a soft failure:
restore returns no error and changes nothing, and scale-down returns no
error and leaves the live pool state unchanged — though scale-down writes
the saved-state record (create-if-absent) before the busy response, so with
an existing record the world is fully unchanged. The EKS variant instead
propagates the busy error from `UpdateNodegroupConfig` (leaving its world
unchanged). -/
theorem C8_cluster_busy (w : GKEWorld) (name : String) (savedConfig : NodePoolConfig)
    (pool : NodePool) (count : Int)
    (wa : AWSWorld) (gname : String) (savedG : NodeGroupConfig)
    (n0 : GoNode) (rest : List GoNode)
    (hb : w.busy = true)
    (hs : listLookup w.configMaps (savedStateKey name) = some savedConfig)
    (hp : w.findPool name = some pool)
    (hab : wa.busy = true)
    (has : listLookup wa.configMaps (savedStateKey gname) = some savedG)
    (han : wa.getNodesInNodeGroup gname = n0 :: rest)
    (har : (n0.regionLabel == "") = false) :
    ((GKEProvider.RestoreNodePool w name).1 = .ok ()
      ∧ (GKEProvider.RestoreNodePool w name).2.1 = w)
    ∧ ((GKEProvider.ScaleNodePool w name count).1 = .ok ()
      ∧ (GKEProvider.ScaleNodePool w name count).2.1 = w)
    ∧ ((AWSProvider.RestoreNodePool wa gname).1 =
         .error (.genericError ("ResourceInUseException"))
      ∧ (AWSProvider.RestoreNodePool wa gname).2.1 = wa) := by
  refine ⟨?_, ?_, ?_⟩
  · simp only [GKEProvider.RestoreNodePool, hs, hp]
    by_cases hm : (autoscalingEnabledMatch pool savedConfig &&
        nodeCountMatch pool savedConfig) = true
    · simp [hm]
    · cases hsa : savedConfig.Autoscaling with
      | none => simp [hm, hsa, hb]
      | some sa =>
        by_cases hen : sa.Enabled = true
        · by_cases ham : autoscalingEnabledMatch pool savedConfig = true
          · simp [hm, hsa, hen, ham, hb]
          · simp [hm, hsa, hen, ham, hb]
        · simp [hm, hsa, hen, hb]
  · simp only [GKEProvider.ScaleNodePool, hp]
    by_cases hc : ((w.nodes.filter (fun n => n.poolLabel == name)).length : Int) = count
    · simp [hc]
    · have hsave : GKEProvider.saveNodePoolConfig w name =
          (.ok (), w, [.createConfigMap (savedStateKey name)]) := by
        simp only [GKEProvider.saveNodePoolConfig, hp]
        rw [createIfAbsent_of_mem w.configMaps (savedStateKey name) savedConfig _ hs]
      cases hpa : pool.Autoscaling with
      | none => simp [hc, hsave, hpa, GKEProvider.updateNodePool, hb]
      | some a =>
        by_cases hae : a.Enabled = true
        · simp [hc, hsave, hpa, hae, GKEProvider.disableAutoscaling,
            GKEProvider.updateNodePool, hb]
        · simp [hc, hsave, hpa, hae, GKEProvider.updateNodePool, hb]
  · simp [AWSProvider.RestoreNodePool, has, han, har,
      AWSProvider.updateNodegroupConfig, hab]

/-- A busy GKE world with a saved record and a cordoned node. -/
def gkeBusy : GKEWorld :=
  ⟨[⟨"p1", 3, none⟩], [⟨"n1", "p1", true, ""⟩],
   [("bmw-saver-nodepool-p1", ⟨5, none⟩)], true⟩

/-- A busy EKS world with a saved record. -/
def awsBusy : AWSWorld :=
  ⟨[⟨"n1", "ng1", false, "us-east-1"⟩],
   [("ng1", ⟨some ⟨some 1, some 3, some 2⟩⟩)],
   [("bmw-saver-nodepool-ng1", ⟨3, none⟩)], true⟩

theorem C8_witness :
    ((GKEProvider.RestoreNodePool gkeBusy "p1").1 = .ok ()
      ∧ (GKEProvider.RestoreNodePool gkeBusy "p1").2.1 = gkeBusy)
    ∧ ((GKEProvider.ScaleNodePool gkeBusy "p1" 0).1 = .ok ()
      ∧ (GKEProvider.ScaleNodePool gkeBusy "p1" 0).2.1 = gkeBusy)
    ∧ ((AWSProvider.RestoreNodePool awsBusy "ng1").1 =
         .error (.genericError ("ResourceInUseException"))
      ∧ (AWSProvider.RestoreNodePool awsBusy "ng1").2.1 = awsBusy) := by
  exact C8_cluster_busy gkeBusy "p1" ⟨5, none⟩ ⟨"p1", 3, none⟩ 0
    awsBusy "ng1" ⟨3, none⟩ ⟨"n1", "ng1", false, "us-east-1"⟩ []
    rfl rfl rfl rfl rfl rfl (by decide)

/-- A busy GKE world with no saved record yet for its pool. -/
def gkeBusyNoRecord : GKEWorld :=
  ⟨[⟨"p1", 3, none⟩], [⟨"n1", "p1", false, ""⟩], [], true⟩

/-- C8 counterexample: a busy EKS restore returns an error rather than
swallowing the busy response, and a busy GKE scale-down on a pool without a
saved record changes the saved state (the record is created before the busy
response), contradicting the claim that both variants return no error and
leave the saved state unchanged. -/
theorem C8_counterexample :
    (AWSProvider.RestoreNodePool awsBusy "ng1").1 =
      .error (.genericError ("ResourceInUseException"))
    ∧ gkeBusyNoRecord.configMaps = []
    ∧ (GKEProvider.ScaleNodePool gkeBusyNoRecord "p1" 0).2.1.configMaps =
        [("bmw-saver-nodepool-p1", ⟨3, none⟩)] := by
  exact ⟨rfl, rfl, rfl⟩

end BmwSaver
